import Mathlib

/-!
Verification development for the `ocrworker` repository (files
`ocrworker/s3.py` and `ocrworker/tasks.py`).

The Python modules are shallowly embedded as pure Lean functions:

* storage paths are structured values (`RelPath`); the spec's storage-key
  invariant says local path and remote key differ only by a fixed media-root /
  key-prefix, so the media-root component is elided and a remote key is a
  key-prefix paired with the relative path (`S3Key`);
* the local filesystem is an association list from relative paths to file
  contents, newest entry first (writes shadow older entries);
* the remote object store, the HTTP client and the metadata store are given
  as function-valued parameters (`Remote`, `Db`);
* every s3 operation returns its result, the updated filesystem and the list
  of remote operations it issued (`S3Result`), so "performs no remote call"
  is the statement that the operation list is empty;
* UUID generation (`uuid.uuid4()`) is modelled by a deterministic fresh-name
  supply: a counter that yields pairwise distinct identifiers.

Helper modules of the repository that are not part of the provided sources
(`ocrworker.plib`, `ocrworker.constants`, `ocrworker.db`, `ocrworker.utils`,
Python's `mimetypes`) are modelled from the spec where needed; each such
definition carries a doc comment saying so.
-/

namespace OcrWorker

/-- Relative storage path, deterministic from entity identifiers
(spec §3 "Storage Key"). `docverFile v f` is the document-version file
`docvers/<v>/<f>`; `pageFile p n` is the page-directory member
`pages/<p>/<n>`. -/
inductive RelPath where
  | docverFile (docverId : Nat) (fileName : String)
  | pageFile (pageId : Nat) (name : String)
deriving DecidableEq

/-- Remote object key: the configured key-prefix plus the relative path
(`keyname = Path(get_prefix()) / rel_path` in `s3.py`). -/
structure S3Key where
  pfx : String
  rel : RelPath
deriving DecidableEq

/-- Modelled from the spec: `ocrworker.constants.PAGE_PDF`, the fixed name of
a page's rendered PDF inside its page directory. -/
def PAGE_PDF : String := "page.pdf"

/-- Modelled from the spec: the fixed name of a page's recognized-text
sidecar used by `plib.page_txt_path` / `plib.abs_page_txt_path`. -/
def PAGE_TXT : String := "page.txt"

/-- Local filesystem: relative path to file contents, newest entry first. -/
abbrev FS : Type := List (RelPath × String)

/-- Look up a file; the most recent write shadows older ones. -/
def fsGet : FS → RelPath → Option String
  | [], _ => none
  | e :: rest, p => if e.1 = p then some e.2 else fsGet rest p

/-- Write a file (overwrites by shadowing). -/
def fsSet (fs : FS) (p : RelPath) (v : String) : FS := (p, v) :: fs

/-- Errors raised by the embedded code. `s3DocumentNotFound` is
`exceptions.S3DocumentNotFound`; `txtNotFoundOnS3` is the `ValueError` of
`download_page_txt`; `unsupportedFormat` is the `ValueError` of
`ocr_document_task`; `transportFault` is any non-`ClientError` failure
talking to the object store; `missingSource` is a stitch input file missing
on disk; `dbMissingDocVer` is a metadata-store lookup miss. -/
inductive Err where
  | s3DocumentNotFound (key : S3Key)
  | txtNotFoundOnS3 (key : S3Key)
  | unsupportedFormat (docverId : Nat) (fileName : String)
  | transportFault
  | missingSource (p : RelPath)
  | dbMissingDocVer
deriving DecidableEq

/-- Response of `head_object`: success, an error response delivered as a
`botocore` `ClientError` carrying a code (not-found, access-denied, ...), or
a fault that is not a `ClientError` (network failure etc.). -/
inductive HeadResp where
  | ok
  | clientErr (code : String)
  | transportErr
deriving DecidableEq

/-- HTTP response as seen by `httpx`: a status code and a body;
`resp.read()` returns the body whatever the status is. -/
structure HttpResp where
  status : Nat
  body : String
deriving DecidableEq

/-- A presigned GET URL (`generate_presigned_url`): it determines the bucket,
the key and the validity window. -/
structure SignedUrl where
  bucket : String
  key : S3Key
  expiresIn : Nat
deriving DecidableEq

/-- The remote world: `head` answers `head_object`, `getObj` answers
`download_file` (`none` means the transfer fails), `http` answers an
`httpx` GET of a presigned URL (`Except.error` is a network fault). -/
structure Remote where
  head : S3Key → HeadResp
  getObj : S3Key → Option String
  http : SignedUrl → Except Unit HttpResp

/-- One remote operation issued by the s3 module. -/
inductive RemoteOp where
  | headObject (key : S3Key)
  | downloadFile (key : S3Key) (dest : RelPath)
  | uploadFile (src : RelPath) (key : S3Key)
  | presignGet (key : S3Key)
  | httpGet (url : SignedUrl)
deriving DecidableEq

/-- The relevant settings (`config.get_settings()`): the three credential
fields checked by `is_enabled` (`none` models unset/empty, which is falsy in
Python) and the main prefix. -/
structure Cfg where
  bucketName : Option String
  awsAccessKeyId : Option String
  awsSecretAccessKey : Option String
  pfx : String
deriving DecidableEq

/-- `s3.is_enabled`: all of bucket name, access key id and secret must be
set. -/
def is_enabled (cfg : Cfg) : Bool :=
  cfg.bucketName.isSome && cfg.awsAccessKeyId.isSome &&
    cfg.awsSecretAccessKey.isSome

/-- `s3.get_bucket_name` (defaulting to the empty string when unset, which
only happens when the module is disabled). -/
def get_bucket_name (cfg : Cfg) : String := cfg.bucketName.getD ""

/-- Outcome of an s3 operation: the returned value or raised error, the
filesystem afterwards, and every remote operation issued. -/
structure S3Result (α : Type) where
  res : Except Err α
  fs : FS
  ops : List RemoteOp

/-- `s3.skip_if_s3_disabled`: when the module is disabled the wrapped body is
not entered and the call returns immediately. -/
def skip_if_s3_disabled (cfg : Cfg) (fs : FS) (body : Unit → S3Result Unit) :
    S3Result Unit :=
  if is_enabled cfg = false then ⟨.ok (), fs, []⟩ else body ()

/-- `s3.obj_exists`: `head_object`, with any `ClientError` mapped to
`false` and any other fault propagated. -/
def obj_exists (r : Remote) (key : S3Key) : Except Err Bool :=
  match r.head key with
  | .ok => .ok true
  | .clientErr _ => .ok false
  | .transportErr => .error .transportFault

/-- `s3.download_docver`: when the local copy is missing, check remote
existence and raise `S3DocumentNotFound` if absent; then (in every
non-raising case) download the object over the local path. -/
def download_docver (cfg : Cfg) (r : Remote) (fs : FS) (docverId : Nat)
    (fileName : String) : S3Result Unit :=
  skip_if_s3_disabled cfg fs (fun _ =>
    let docVerPath : RelPath := .docverFile docverId fileName
    let keyname : S3Key := ⟨cfg.pfx, docVerPath⟩
    let checked : Except Err Unit × List RemoteOp :=
      if fsGet fs docVerPath = none then
        match obj_exists r keyname with
        | .error e => (.error e, [.headObject keyname])
        | .ok false => (.error (.s3DocumentNotFound keyname),
            [.headObject keyname])
        | .ok true => (.ok (), [.headObject keyname])
      else (.ok (), [])
    match checked with
    | (.error e, ops) => ⟨.error e, fs, ops⟩
    | (.ok _, ops) =>
      match r.getObj keyname with
      | some content =>
          ⟨.ok (), fsSet fs docVerPath content,
            ops ++ [.downloadFile keyname docVerPath]⟩
      | none => ⟨.error .transportFault, fs,
          ops ++ [.downloadFile keyname docVerPath]⟩)

/-- `s3.upload_file`: missing or non-regular local target is logged and
swallowed; otherwise the file is uploaded under the prefixed key. -/
def upload_file (cfg : Cfg) (fs : FS) (relFilePath : RelPath) :
    S3Result Unit :=
  skip_if_s3_disabled cfg fs (fun _ =>
    let keyname : S3Key := ⟨cfg.pfx, relFilePath⟩
    match fsGet fs relFilePath with
    | none => ⟨.ok (), fs, []⟩
    | some _ => ⟨.ok (), fs, [.uploadFile relFilePath keyname]⟩)

/-- `s3.upload_page_dir`: upload every file of the page folder via
`upload_file`. -/
def upload_page_dir (cfg : Cfg) (fs : FS) (pageId : Nat) : S3Result Unit :=
  skip_if_s3_disabled cfg fs (fun _ =>
    let inPageDir : RelPath × String → Bool := fun e =>
      match e.1 with
      | .pageFile q _ => q = pageId
      | _ => false
    (fs.filter inPageDir).foldl
      (fun acc e =>
        let one := upload_file cfg acc.fs e.1
        ⟨one.res, one.fs, acc.ops ++ one.ops⟩)
      ⟨.ok (), fs, []⟩)

/-- `s3.download_page_txt`: return early when the sidecar is already local;
otherwise raise `ValueError` when the key is absent remotely, else download
it. -/
def download_page_txt (cfg : Cfg) (r : Remote) (fs : FS) (pageId : Nat) :
    S3Result Unit :=
  skip_if_s3_disabled cfg fs (fun _ =>
    let absPath : RelPath := .pageFile pageId PAGE_TXT
    if (fsGet fs absPath).isSome then ⟨.ok (), fs, []⟩
    else
      let keyname : S3Key := ⟨cfg.pfx, absPath⟩
      match obj_exists r keyname with
      | .error e => ⟨.error e, fs, [.headObject keyname]⟩
      | .ok false => ⟨.error (.txtNotFoundOnS3 keyname),
          fs, [.headObject keyname]⟩
      | .ok true =>
        match r.getObj keyname with
        | some c => ⟨.ok (), fsSet fs absPath c,
            [.headObject keyname, .downloadFile keyname absPath]⟩
        | none => ⟨.error .transportFault, fs,
            [.headObject keyname, .downloadFile keyname absPath]⟩)

/-- The presigned URL `get_pdf_page` generates for one page's PDF
(`ExpiresIn=30`). -/
def page_pdf_url (cfg : Cfg) (pageId : Nat) : SignedUrl :=
  ⟨get_bucket_name cfg, ⟨cfg.pfx, .pageFile pageId PAGE_PDF⟩, 30⟩

/-- `s3.get_pdf_page`: presign a GET for the page's PDF key and return the
response body with no status check. -/
def get_pdf_page (cfg : Cfg) (r : Remote) (pageId : Nat) :
    Except Err String × List RemoteOp :=
  let url := page_pdf_url cfg pageId
  match r.http url with
  | .error _ => (.error .transportFault, [.presignGet url.key, .httpGet url])
  | .ok resp => (.ok resp.body, [.presignGet url.key, .httpGet url])

/-- `s3.download_one_pdf_page`: fetch the page bytes and write them as the
page's local PDF file. -/
def download_one_pdf_page (cfg : Cfg) (r : Remote) (fs : FS) (pageId : Nat) :
    S3Result Unit :=
  match get_pdf_page cfg r pageId with
  | (.error e, ops) => ⟨.error e, fs, ops⟩
  | (.ok body, ops) =>
      ⟨.ok (), fsSet fs (.pageFile pageId PAGE_PDF) body, ops⟩

/-- `s3.supervisor`: gather the per-page fetches; the first failure fails the
whole batch, otherwise the number of fetched pages is returned. -/
def supervisor (cfg : Cfg) (r : Remote) : FS → List Nat → S3Result Nat
  | fs, [] => ⟨.ok 0, fs, []⟩
  | fs, pid :: rest =>
    let one := download_one_pdf_page cfg r fs pid
    match one.res with
    | .error e => ⟨.error e, one.fs, one.ops⟩
    | .ok _ =>
      let tail := supervisor cfg r one.fs rest
      ⟨tail.res.map (· + 1), tail.fs, one.ops ++ tail.ops⟩

/-- `s3.download_many_pdf_pages`. -/
def download_many_pdf_pages (cfg : Cfg) (r : Remote) (fs : FS)
    (pageIds : List Nat) : S3Result Nat :=
  supervisor cfg r fs pageIds

/-- `s3.download_pdf_pages`: skip pages whose PDF is already local and fetch
the rest as one batch. -/
def download_pdf_pages (cfg : Cfg) (r : Remote) (fs : FS)
    (targetPageIds : List Nat) : S3Result Unit :=
  skip_if_s3_disabled cfg fs (fun _ =>
    let toDownload := targetPageIds.filter
      (fun pid => fsGet fs (.pageFile pid PAGE_PDF) = none)
    let batch := download_many_pdf_pages cfg r fs toDownload
    ⟨batch.res.map (fun _ => ()), batch.fs, batch.ops⟩)

/-! ## tasks.py -/

/-- A document version row as read back from the metadata store. -/
structure DocVer where
  id : Nat
  file_name : String
deriving DecidableEq

/-- Modelled from the spec: the metadata store interface (`ocrworker.db`):
`lastVersion` is `get_last_version`, `pagesOf` is `get_pages` (source page
ids of a version), `getDocVer` is `get_doc_ver`. -/
structure Db where
  lastVersion : Nat → Option DocVer
  pagesOf : Nat → List Nat
  getDocVer : Nat → Option DocVer

/-- Fresh-identifier supply standing for `uuid.uuid4()`: successive draws
are pairwise distinct. -/
structure UuidGen where
  counter : Nat
deriving DecidableEq

/-- The page identifiers allocated by `n` successive `uuid.uuid4()` calls
after the target version id was drawn at `c`. -/
def allocPageIds (c n : Nat) : List Nat :=
  (List.range n).map (fun i => c + 1 + i)

/-- Suffix test on the underlying character lists (same meaning as
`String.endsWith`, stated over `String.data` so it evaluates by cases). -/
def hasSuffix (fileName sfx : String) : Bool :=
  sfx.data.isSuffixOf fileName.data

/-- Models Python's `mimetypes.guess_type` on the common extensions: the
MIME type is resolved from the file-name suffix alone. -/
def guess_type (fileName : String) : Option String :=
  if hasSuffix fileName ".pdf" then some "application/pdf"
  else if hasSuffix fileName ".png" then some "image/png"
  else if hasSuffix fileName ".jpg" then some "image/jpeg"
  else if hasSuffix fileName ".tiff" then some "image/tiff"
  else if hasSuffix fileName ".txt" then some "text/plain"
  else none

/-- The literal keyword arguments of one `ocr_page_task` signature in the
submitted workflow. -/
structure PageSig where
  doc_id : Nat
  doc_ver_id : Nat
  page_number : Nat
  target_docver_id : Nat
  target_page_id : Nat
  lang : String
  preview_width : Nat
deriving DecidableEq

/-- The literal keyword arguments of the `stitch_pages_task` signature. -/
structure StitchSig where
  doc_ver_id : Nat
  target_docver_id : Nat
  target_page_ids : List Nat
deriving DecidableEq

/-- The literal keyword arguments of the `update_db_task` signature. -/
structure UpdateSig where
  doc_id : Nat
  doc_ver_id : Nat
  lang : String
  target_docver_id : Nat
  target_page_ids : List Nat
deriving DecidableEq

/-- The task graph submitted by `workflow.apply_async()`: a group of per-page
OCR tasks, then the chain stitch → update-db → preview → notify, each
carrying its literal parameters. -/
structure Workflow where
  pageTasks : List PageSig
  stitchSig : StitchSig
  updateSig : UpdateSig
  previewDocId : Nat
  notifyDocId : Nat
deriving DecidableEq

/-- The workflow `ocr_document_task` builds once the source version is local
and its MIME type accepted (lines 57-85 of `tasks.py`). -/
def build_workflow (documentId : Nat) (doc_ver : DocVer)
    (target_docver_uuid : Nat) (target_page_uuids : List Nat)
    (lang : String) : Workflow :=
  { pageTasks := target_page_uuids.enum.map (fun e =>
      { doc_id := doc_ver.id
        doc_ver_id := doc_ver.id
        page_number := e.1 + 1
        target_docver_id := target_docver_uuid
        target_page_id := e.2
        lang := lang
        preview_width := 300 })
    stitchSig := ⟨doc_ver.id, target_docver_uuid, target_page_uuids⟩
    updateSig := ⟨documentId, doc_ver.id, lang, target_docver_uuid,
      target_page_uuids⟩
    previewDocId := documentId
    notifyDocId := documentId }

/-- One attempt of the top-level task: its outcome (the submitted workflow,
or the raised error), the target identifiers it allocated, the filesystem
afterwards, and the state of the fresh-identifier supply afterwards. -/
structure TaskRun where
  outcome : Except Err Workflow
  targetDocverId : Nat
  targetPageIds : List Nat
  fs : FS
  gen : UuidGen

/-- `tasks.ocr_document_task` (one attempt): read the last version and its
pages, draw fresh target identifiers, ensure the source version is local
(`s3.download_docver`), check the MIME type, then build and submit the task
graph. -/
def ocr_document_task (cfg : Cfg) (r : Remote) (db : Db) (fs : FS)
    (gen : UuidGen) (documentId : Nat) (lang : String) : TaskRun :=
  match db.lastVersion documentId with
  | none => ⟨.error .dbMissingDocVer, 0, [], fs, gen⟩
  | some doc_ver =>
    let pages := db.pagesOf doc_ver.id
    let target_docver_uuid := gen.counter
    let target_page_uuids := allocPageIds gen.counter pages.length
    let gen2 : UuidGen := ⟨gen.counter + 1 + pages.length⟩
    let lang2 := lang.toLower
    let dl := download_docver cfg r fs doc_ver.id doc_ver.file_name
    match dl.res with
    | .error e =>
        ⟨.error e, target_docver_uuid, target_page_uuids, dl.fs, gen2⟩
    | .ok _ =>
      let t := guess_type doc_ver.file_name
      if t = some "application/pdf" ∨ t = some "application/image" then
        ⟨.ok (build_workflow documentId doc_ver target_docver_uuid
            target_page_uuids lang2),
          target_docver_uuid, target_page_uuids, dl.fs, gen2⟩
      else
        ⟨.error (.unsupportedFormat doc_ver.id doc_ver.file_name),
          target_docver_uuid, target_page_uuids, dl.fs, gen2⟩

/-- The `retry_kwargs` of `ocr_document_task`. -/
structure RetryKwargs where
  max_retries : Nat
  countdown : Nat
deriving DecidableEq

/-- `retry_kwargs={"max_retries": 6, "countdown": 10}` on
`ocr_document_task`. -/
def ocr_document_retry_kwargs : RetryKwargs := ⟨6, 10⟩

/-- `autoretry_for=(exceptions.S3DocumentNotFound,)`: exactly the errors the
scheduler retries the top-level task for. -/
def isAutoRetried : Err → Bool
  | .s3DocumentNotFound _ => true
  | _ => false

/-- Read every listed file; `none` as soon as one is missing. -/
def readAll (fs : FS) : List RelPath → Option (List String)
  | [] => some []
  | p :: rest =>
    match fsGet fs p, readAll fs rest with
    | some v, some vs => some (v :: vs)
    | _, _ => none

/-- Modelled from the spec: the external PDF merge collaborator
(`utils.stitch_pdf`) — given an ordered list of source paths and a
destination path, it writes the concatenation of the sources at the
destination; a missing source fails the merge. -/
def stitch_pdf (fs : FS) (srcs : List RelPath) (dst : RelPath) :
    Except Err FS :=
  match readAll fs srcs with
  | none => .error (.missingSource dst)
  | some contents => .ok (fsSet fs dst (String.join contents))

/-- `tasks.stitch_pages_task`: fetch any target page PDFs not yet local as
one batch, concatenate them in the order of `target_page_ids` into the new
version's file, and publish the result. -/
def stitch_pages_task (cfg : Cfg) (r : Remote) (db : Db) (fs : FS)
    (sig : StitchSig) : S3Result Unit :=
  match db.getDocVer sig.doc_ver_id with
  | none => ⟨.error .dbMissingDocVer, fs, []⟩
  | some doc_ver =>
    let dst : RelPath := .docverFile sig.target_docver_id doc_ver.file_name
    let srcs := sig.target_page_ids.map
      (fun pid => RelPath.pageFile pid PAGE_PDF)
    let dl := download_pdf_pages cfg r fs sig.target_page_ids
    match dl.res with
    | .error e => ⟨.error e, dl.fs, dl.ops⟩
    | .ok _ =>
      match stitch_pdf dl.fs srcs dst with
      | .error e => ⟨.error e, dl.fs, dl.ops⟩
      | .ok fs2 =>
        let up := upload_file cfg fs2
          (.docverFile sig.target_docver_id doc_ver.file_name)
        ⟨up.res, up.fs, dl.ops ++ up.ops⟩

/-- The per-page loop of `update_db_task`: for each newly created page fetch
its sidecar (`s3.download_page_txt`), then read the text from disk, falling
back to the empty string when the file does not exist. Returns the attached
texts in page order. -/
def collect_page_texts (cfg : Cfg) (r : Remote) :
    FS → List Nat → Except Err (List String) × FS × List RemoteOp
  | fs, [] => (.ok [], fs, [])
  | fs, pid :: rest =>
    let dl := download_page_txt cfg r fs pid
    match dl.res with
    | .error e => (.error e, dl.fs, dl.ops)
    | .ok _ =>
      let text := (fsGet dl.fs (.pageFile pid PAGE_TXT)).getD ""
      let tail := collect_page_texts cfg r dl.fs rest
      (tail.1.map (fun ts => text :: ts), tail.2.1, dl.ops ++ tail.2.2)

/-- `tasks.update_db_task`. `db.increment_doc_ver` and
`db.update_doc_ver_text` are external metadata-store calls; modelled from
the spec: the commit creates the new version with exactly the given target
page ids, and `get_pages` on the new version returns them in order, so the
loop runs over `sig.target_page_ids`. The returned list is the text body
attached to each new page, in page order. -/
def update_db_task (cfg : Cfg) (r : Remote) (fs : FS) (sig : UpdateSig) :
    Except Err (List String) × FS × List RemoteOp :=
  collect_page_texts cfg r fs sig.target_page_ids

/-! ## Task graph execution order -/

/-- A node of the submitted task graph, as it appears in an execution
trace: the i-th per-page OCR task, or one of the chained tasks. -/
inductive TLabel where
  | pageT (i : Nat)
  | stitchT
  | updateT
  | previewT
  | notifyT
deriving DecidableEq

/-- Modelled from the spec: the scheduler's chain/group (fan-in barrier)
semantics — the group members complete in some arbitrary order, and only
then does the chain continuation stitch → update-db → preview → notify
run. A trace records the completion order of the graph's tasks. -/
def validTrace (w : Workflow) (t : List TLabel) : Prop :=
  ∃ perm : List Nat, perm.Perm (List.range w.pageTasks.length) ∧
    t = perm.map TLabel.pageT ++
      [TLabel.stitchT, TLabel.updateT, TLabel.previewT, TLabel.notifyT]

/-! ## Basic lemmas and concrete fixtures -/

theorem fsGet_fsSet_self (fs : FS) (p : RelPath) (v : String) :
    fsGet (fsSet fs p v) p = some v := by
  simp [fsGet, fsSet]

theorem fsGet_fsSet_ne (fs : FS) (p q : RelPath) (v : String) (h : p ≠ q) :
    fsGet (fsSet fs p v) q = fsGet fs q := by
  simp [fsGet, fsSet, h]

/-- A fully configured deployment (mirror enabled). -/
def cfgOn : Cfg := ⟨some "bucket", some "access-key", some "secret-key", "main"⟩

/-- A deployment with no remote credentials (mirror disabled). -/
def cfgOff : Cfg := ⟨none, none, none, "main"⟩

/-- A remote on which every key is absent and plain GETs fail. -/
def rAbsent : Remote :=
  ⟨fun _ => .clientErr "NoSuchKey", fun _ => none, fun _ => .error ()⟩

/-- A remote on which every key exists and every transfer succeeds. -/
def rFull : Remote :=
  ⟨fun _ => .ok, fun _ => some "OBJ", fun _ => .ok ⟨200, "BYTES"⟩⟩

/-- A remote whose `head_object` fails with an authorization `ClientError`
although the objects are present. -/
def rAuthFail : Remote :=
  ⟨fun _ => .clientErr "AccessDenied", fun _ => some "OBJ",
    fun _ => .ok ⟨200, "BYTES"⟩⟩

/-- A remote that is unreachable: `head_object` raises a non-`ClientError`
fault. -/
def rNetFail : Remote :=
  ⟨fun _ => .transportErr, fun _ => none, fun _ => .error ()⟩

/-- A remote whose presigned GETs answer 404 with an XML error document. -/
def rHttp404 : Remote :=
  ⟨fun _ => .ok, fun _ => some "OBJ",
    fun _ => .ok ⟨404, "NoSuchKey error document"⟩⟩

/-- A metadata store holding document 7 whose last version is version 1,
file `a.pdf`, with one source page (id 21). -/
def dbEx : Db :=
  ⟨fun d => if d = 7 then some ⟨1, "a.pdf"⟩ else none,
    fun v => if v = 1 then [21] else [],
    fun v => if v = 1 then some ⟨1, "a.pdf"⟩ else none⟩

/-- Like `dbEx` but the version's file has an unrecognized extension. -/
def dbBin : Db :=
  ⟨fun d => if d = 7 then some ⟨1, "a.bin"⟩ else none,
    fun v => if v = 1 then [21] else [],
    fun v => if v = 1 then some ⟨1, "a.bin"⟩ else none⟩

/-- A filesystem already holding version 1's file locally. -/
def fsLoc : FS := [(.docverFile 1 "a.pdf", "PDFBYTES")]

/-! ## Claims -/

/-- Claim C9: when the remote credentials/bucket configuration is unset,
every mirror operation (document-version download, page-directory upload,
file upload, page-text download, batched page-PDF download) returns
immediately with no error, performs no remote call, and makes no local
filesystem change. -/
theorem C9_disabled_mirror_noop (cfg : Cfg) (hdis : is_enabled cfg = false) :
    (∀ r fs docverId fileName,
        download_docver cfg r fs docverId fileName = ⟨.ok (), fs, []⟩)
    ∧ (∀ fs pageId, upload_page_dir cfg fs pageId = ⟨.ok (), fs, []⟩)
    ∧ (∀ fs rel, upload_file cfg fs rel = ⟨.ok (), fs, []⟩)
    ∧ (∀ r fs pageId, download_page_txt cfg r fs pageId = ⟨.ok (), fs, []⟩)
    ∧ (∀ r fs ids, download_pdf_pages cfg r fs ids = ⟨.ok (), fs, []⟩) := by
  refine ⟨fun r fs i f => ?_, fun fs p => ?_, fun fs rel => ?_,
    fun r fs p => ?_, fun r fs ids => ?_⟩ <;>
    simp [download_docver, upload_page_dir, upload_file, download_page_txt,
      download_pdf_pages, skip_if_s3_disabled, hdis]

/-- Witness for C9 at a concrete unconfigured deployment. -/
theorem C9_disabled_mirror_noop_witness :
    download_docver cfgOff rAbsent fsLoc 1 "a.pdf" = ⟨.ok (), fsLoc, []⟩
    ∧ upload_page_dir cfgOff fsLoc 21 = ⟨.ok (), fsLoc, []⟩
    ∧ upload_file cfgOff fsLoc (.docverFile 1 "a.pdf") = ⟨.ok (), fsLoc, []⟩
    ∧ download_page_txt cfgOff rAbsent fsLoc 21 = ⟨.ok (), fsLoc, []⟩
    ∧ download_pdf_pages cfgOff rAbsent fsLoc [21, 22] = ⟨.ok (), fsLoc, []⟩ :=
  ⟨(C9_disabled_mirror_noop cfgOff rfl).1 rAbsent fsLoc 1 "a.pdf",
    (C9_disabled_mirror_noop cfgOff rfl).2.1 fsLoc 21,
    (C9_disabled_mirror_noop cfgOff rfl).2.2.1 fsLoc (.docverFile 1 "a.pdf"),
    (C9_disabled_mirror_noop cfgOff rfl).2.2.2.1 rAbsent fsLoc 21,
    (C9_disabled_mirror_noop cfgOff rfl).2.2.2.2 rAbsent fsLoc [21, 22]⟩

/-- Claim C10: whatever bytes the HTTP GET of the signed URL returns are
written as that page's PDF file without any check of the response status —
the theorem quantifies over every response, so in particular a non-2xx
error document is persisted as the page's PDF content and no error is
raised. -/
theorem C10_body_persisted_unchecked (cfg : Cfg) (r : Remote) (fs : FS)
    (pageId : Nat) (resp : HttpResp)
    (hhttp : r.http (page_pdf_url cfg pageId) = .ok resp) :
    (download_one_pdf_page cfg r fs pageId).res = .ok ()
    ∧ fsGet (download_one_pdf_page cfg r fs pageId).fs
        (.pageFile pageId PAGE_PDF) = some resp.body := by
  simp [download_one_pdf_page, get_pdf_page, hhttp, fsGet_fsSet_self]

/-- Witness for C10: a 404 error document is stored as the page PDF. -/
theorem C10_body_persisted_unchecked_witness :
    (download_one_pdf_page cfgOn rHttp404 [] 21).res = .ok ()
    ∧ fsGet (download_one_pdf_page cfgOn rHttp404 [] 21).fs
        (.pageFile 21 PAGE_PDF) = some "NoSuchKey error document" :=
  C10_body_persisted_unchecked cfgOn rHttp404 [] 21
    ⟨404, "NoSuchKey error document"⟩ rfl

/-- Claim C4 counterexample: on a remote whose `head_object` fails with an
authorization `ClientError` (`AccessDenied`, not a not-found response), the
existence check returns `false` instead of propagating an error, contrary
to the claim that only not-found maps to `false`. -/
theorem C4_counterexample :
    obj_exists rAuthFail ⟨"main", .docverFile 1 "a.pdf"⟩ = .ok false
    ∧ obj_exists rAuthFail ⟨"main", .docverFile 1 "a.pdf"⟩
        ≠ .error .transportFault := by
  constructor
  · rfl
  · intro h
    simp [obj_exists, rAuthFail] at h

/-- Claim C4 (amended): the remote-existence check returns `false` exactly
when the remote responds with any `ClientError` (not-found and auth
failures alike); only faults that are not `ClientError`s (e.g. network
failures) propagate as errors, and a successful `head_object` yields
`true`. -/
theorem C4_amended_clienterr_is_false (r : Remote) (k : S3Key) :
    (obj_exists r k = .ok false ↔ ∃ c, r.head k = .clientErr c)
    ∧ (r.head k = .transportErr → obj_exists r k = .error .transportFault)
    ∧ (r.head k = .ok → obj_exists r k = .ok true) := by
  cases h : r.head k <;> simp [obj_exists, h]

/-- Witness for C4 (amended): an absent key reports `false`; an unreachable
remote propagates a fault. -/
theorem C4_amended_clienterr_is_false_witness :
    obj_exists rAbsent ⟨"main", .docverFile 1 "a.pdf"⟩ = .ok false
    ∧ obj_exists rNetFail ⟨"main", .docverFile 1 "a.pdf"⟩
        = .error .transportFault :=
  ⟨(C4_amended_clienterr_is_false rAbsent ⟨"main", .docverFile 1 "a.pdf"⟩).1.2
      ⟨"NoSuchKey", rfl⟩,
    (C4_amended_clienterr_is_false rNetFail
      ⟨"main", .docverFile 1 "a.pdf"⟩).2.1 rfl⟩

/-- Claim C3 counterexample: with the mirror enabled and version 1's file
already in the local cache, `download_docver` still issues a remote
download — both on the first call and on an immediately repeated call — so
neither call performs zero remote operations. -/
theorem C3_counterexample :
    (download_docver cfgOn rFull fsLoc 1 "a.pdf").ops
      = [.downloadFile ⟨"main", .docverFile 1 "a.pdf"⟩
          (.docverFile 1 "a.pdf")]
    ∧ (download_docver cfgOn rFull
          (download_docver cfgOn rFull fsLoc 1 "a.pdf").fs 1 "a.pdf").ops
      = [.downloadFile ⟨"main", .docverFile 1 "a.pdf"⟩
          (.docverFile 1 "a.pdf")]
    ∧ (download_docver cfgOn rFull fsLoc 1 "a.pdf").ops ≠ [] := by
  refine ⟨rfl, rfl, ?_⟩
  intro h
  simp [download_docver, skip_if_s3_disabled, cfgOn, is_enabled, rFull,
    fsLoc, fsGet] at h

/-- Claim C3 (amended): when the local cache already contains the object,
`download_docver` skips the remote existence check but still downloads the
object: each such call performs exactly one remote operation (a download,
no `head_object`), so an immediately repeated call also performs one remote
call rather than zero. -/
theorem C3_amended_local_hit_still_downloads (cfg : Cfg) (r : Remote)
    (fs : FS) (docverId : Nat) (fileName : String) (c : String)
    (hen : is_enabled cfg = true)
    (hloc : fsGet fs (.docverFile docverId fileName) = some c) :
    (download_docver cfg r fs docverId fileName).ops
      = [.downloadFile ⟨cfg.pfx, .docverFile docverId fileName⟩
          (.docverFile docverId fileName)]
    ∧ (∀ b, r.getObj ⟨cfg.pfx, .docverFile docverId fileName⟩ = some b →
        (download_docver cfg r
            (download_docver cfg r fs docverId fileName).fs
            docverId fileName).ops
          = [.downloadFile ⟨cfg.pfx, .docverFile docverId fileName⟩
              (.docverFile docverId fileName)]) := by
  constructor
  · cases hobj : r.getObj ⟨cfg.pfx, .docverFile docverId fileName⟩ <;>
      simp [download_docver, skip_if_s3_disabled, hen, hloc, hobj]
  · intro b hobj
    have hfs : (download_docver cfg r fs docverId fileName).fs
        = fsSet fs (.docverFile docverId fileName) b := by
      simp [download_docver, skip_if_s3_disabled, hen, hloc, hobj]
    rw [hfs]
    cases hobj2 : r.getObj ⟨cfg.pfx, .docverFile docverId fileName⟩ <;>
      simp [download_docver, skip_if_s3_disabled, hen, hobj2,
        fsGet_fsSet_self]

/-- Witness for C3 (amended) at the concrete local-hit state. -/
theorem C3_amended_local_hit_still_downloads_witness :
    (download_docver cfgOn rFull fsLoc 1 "a.pdf").ops
      = [.downloadFile ⟨"main", .docverFile 1 "a.pdf"⟩
          (.docverFile 1 "a.pdf")]
    ∧ (download_docver cfgOn rFull
          (download_docver cfgOn rFull fsLoc 1 "a.pdf").fs 1 "a.pdf").ops
      = [.downloadFile ⟨"main", .docverFile 1 "a.pdf"⟩
          (.docverFile 1 "a.pdf")] :=
  ⟨(C3_amended_local_hit_still_downloads cfgOn rFull fsLoc 1 "a.pdf"
      "PDFBYTES" rfl rfl).1,
    (C3_amended_local_hit_still_downloads cfgOn rFull fsLoc 1 "a.pdf"
      "PDFBYTES" rfl rfl).2 "OBJ" rfl⟩

/-! ## Lemmas on the commit step's sidecar loop -/

theorem download_page_txt_err_absent (cfg : Cfg) (r : Remote) (fs : FS)
    (pid : Nat) (c : String) (hen : is_enabled cfg = true)
    (hloc : fsGet fs (.pageFile pid PAGE_TXT) = none)
    (hhead : r.head ⟨cfg.pfx, .pageFile pid PAGE_TXT⟩ = .clientErr c) :
    download_page_txt cfg r fs pid
      = ⟨.error (.txtNotFoundOnS3 ⟨cfg.pfx, .pageFile pid PAGE_TXT⟩), fs,
          [.headObject ⟨cfg.pfx, .pageFile pid PAGE_TXT⟩]⟩ := by
  simp [download_page_txt, skip_if_s3_disabled, hen, hloc, obj_exists, hhead]

theorem download_page_txt_fs_shape (cfg : Cfg) (r : Remote) (fs : FS)
    (pid : Nat) :
    (download_page_txt cfg r fs pid).fs = fs
    ∨ ∃ v, (download_page_txt cfg r fs pid).fs
        = fsSet fs (.pageFile pid PAGE_TXT) v := by
  by_cases hd : is_enabled cfg = false
  · simp [download_page_txt, skip_if_s3_disabled, hd]
  · by_cases hl : (fsGet fs (.pageFile pid PAGE_TXT)).isSome
    · simp [download_page_txt, skip_if_s3_disabled, hd, hl]
    · cases hh : r.head ⟨cfg.pfx, .pageFile pid PAGE_TXT⟩
      · cases hg : r.getObj ⟨cfg.pfx, .pageFile pid PAGE_TXT⟩ with
        | none =>
            simp [download_page_txt, skip_if_s3_disabled, hd, hl, obj_exists,
              hh, hg]
        | some v =>
            exact .inr ⟨v, by
              simp [download_page_txt, skip_if_s3_disabled, hd, hl,
                obj_exists, hh, hg]⟩
      · simp [download_page_txt, skip_if_s3_disabled, hd, hl, obj_exists, hh]
      · simp [download_page_txt, skip_if_s3_disabled, hd, hl, obj_exists, hh]

theorem collect_page_texts_disabled (cfg : Cfg) (r : Remote)
    (hdis : is_enabled cfg = false) (pids : List Nat) : ∀ fs,
    collect_page_texts cfg r fs pids
      = (.ok (pids.map (fun q => (fsGet fs (.pageFile q PAGE_TXT)).getD "")),
          fs, []) := by
  induction pids with
  | nil => intro fs; simp [collect_page_texts]
  | cons pid rest ih =>
      intro fs
      simp [collect_page_texts, download_page_txt, skip_if_s3_disabled,
        hdis, ih fs, Except.map]

theorem collect_page_texts_err_of_absent (cfg : Cfg) (r : Remote) (c : String)
    (pid : Nat) (hen : is_enabled cfg = true)
    (hhead : r.head ⟨cfg.pfx, .pageFile pid PAGE_TXT⟩ = .clientErr c)
    (pids : List Nat) : ∀ fs, pid ∈ pids →
    fsGet fs (.pageFile pid PAGE_TXT) = none →
    ∃ e, (collect_page_texts cfg r fs pids).1 = .error e := by
  induction pids with
  | nil => intro fs hmem; exact absurd hmem (List.not_mem_nil pid)
  | cons q rest ih =>
      intro fs hmem hloc
      rcases List.mem_cons.1 hmem with hq | hrest
      · subst hq
        refine ⟨.txtNotFoundOnS3 ⟨cfg.pfx, .pageFile pid PAGE_TXT⟩, ?_⟩
        simp [collect_page_texts,
          download_page_txt_err_absent cfg r fs pid c hen hloc hhead]
      · cases hres : (download_page_txt cfg r fs q).res with
        | error e =>
            refine ⟨e, ?_⟩
            simp only [collect_page_texts]
            rw [hres]
        | ok u =>
            have hpres : fsGet (download_page_txt cfg r fs q).fs
                (.pageFile pid PAGE_TXT) = none := by
              rcases download_page_txt_fs_shape cfg r fs q with hsh | ⟨v, hsh⟩
              · rw [hsh]; exact hloc
              · by_cases hqp : q = pid
                · subst hqp
                  rw [download_page_txt_err_absent cfg r fs q c hen hloc
                    hhead] at hres
                  exact absurd hres (by simp)
                · rw [hsh, fsGet_fsSet_ne fs _ _ v (by simp [hqp])]
                  exact hloc
            rcases ih (download_page_txt cfg r fs q).fs hrest hpres with
              ⟨e, he⟩
            refine ⟨e, ?_⟩
            simp only [collect_page_texts]
            rw [hres]
            simp [he, Except.map]

/-- Claim C2 counterexample: with the mirror enabled and page 101's
recognized-text sidecar absent both locally and remotely, the commit step
fails with the `ValueError` raised by `download_page_txt` instead of
attaching an empty text body. -/
theorem C2_counterexample :
    (update_db_task cfgOn rAbsent [] ⟨7, 1, "eng", 100, [101]⟩).1
      = .error (.txtNotFoundOnS3 ⟨"main", .pageFile 101 PAGE_TXT⟩) := rfl

/-- Claim C2 (amended): only with the mirror disabled does a page whose
sidecar is absent get an empty text body while the commit completes
normally; with the mirror enabled, a sidecar absent locally whose remote
key is reported absent makes the sidecar fetch raise, and the commit step
fails. -/
theorem C2_amended_sidecar_absent (cfg : Cfg) (r : Remote) (fs : FS)
    (sig : UpdateSig) (pid : Nat) (c : String) :
    (is_enabled cfg = false →
      update_db_task cfg r fs sig
        = (.ok (sig.target_page_ids.map
            (fun q => (fsGet fs (.pageFile q PAGE_TXT)).getD "")), fs, []))
    ∧ (is_enabled cfg = true → pid ∈ sig.target_page_ids →
        fsGet fs (.pageFile pid PAGE_TXT) = none →
        r.head ⟨cfg.pfx, .pageFile pid PAGE_TXT⟩ = .clientErr c →
        ∃ e, (update_db_task cfg r fs sig).1 = .error e) := by
  constructor
  · intro hdis
    exact collect_page_texts_disabled cfg r hdis sig.target_page_ids fs
  · intro hen hmem hloc hhead
    exact collect_page_texts_err_of_absent cfg r c pid hen hhead
      sig.target_page_ids fs hmem hloc

/-- Witness for C2 (amended): disabled mirror degrades to an empty text
body and completes; enabled mirror with the sidecar absent everywhere
fails. -/
theorem C2_amended_sidecar_absent_witness :
    update_db_task cfgOff rAbsent [] ⟨7, 1, "eng", 100, [101]⟩
      = (.ok [""], [], [])
    ∧ ∃ e, (update_db_task cfgOn rAbsent [] ⟨7, 1, "eng", 100, [101]⟩).1
        = .error e :=
  ⟨by simpa using
      (C2_amended_sidecar_absent cfgOff rAbsent [] ⟨7, 1, "eng", 100, [101]⟩
        101 "NoSuchKey").1 rfl,
    (C2_amended_sidecar_absent cfgOn rAbsent [] ⟨7, 1, "eng", 100, [101]⟩
      101 "NoSuchKey").2 rfl (by simp) rfl rfl⟩

/-! ## Lemmas on the top-level task -/

theorem mem_allocPageIds {c n x : Nat} (h : x ∈ allocPageIds c n) :
    c + 1 ≤ x ∧ x ≤ c + n := by
  simp only [allocPageIds, List.mem_map, List.mem_range] at h
  rcases h with ⟨i, hi, rfl⟩
  omega

theorem length_allocPageIds (c n : Nat) : (allocPageIds c n).length = n := by
  simp [allocPageIds]

theorem ocr_document_task_ids (cfg : Cfg) (r : Remote) (db : Db) (fs : FS)
    (gen : UuidGen) (docId : Nat) (lang : String) (dv : DocVer)
    (hdv : db.lastVersion docId = some dv) :
    (ocr_document_task cfg r db fs gen docId lang).targetDocverId
        = gen.counter
    ∧ (ocr_document_task cfg r db fs gen docId lang).targetPageIds
        = allocPageIds gen.counter (db.pagesOf dv.id).length
    ∧ (ocr_document_task cfg r db fs gen docId lang).gen
        = ⟨gen.counter + 1 + (db.pagesOf dv.id).length⟩ := by
  simp only [ocr_document_task, hdv]
  cases hres : (download_docver cfg r fs dv.id dv.file_name).res with
  | error e => simp [hres]
  | ok u =>
      by_cases hmime : guess_type dv.file_name = some "application/pdf"
          ∨ guess_type dv.file_name = some "application/image"
      · simp [hres, hmime]
      · simp [hres, hmime]

theorem ocr_document_task_outcome_ok (cfg : Cfg) (r : Remote) (db : Db)
    (fs : FS) (gen : UuidGen) (docId : Nat) (lang : String) (dv : DocVer)
    (w : Workflow) (hdv : db.lastVersion docId = some dv)
    (hw : (ocr_document_task cfg r db fs gen docId lang).outcome = .ok w) :
    w = build_workflow docId dv gen.counter
        (allocPageIds gen.counter (db.pagesOf dv.id).length)
        lang.toLower := by
  simp only [ocr_document_task, hdv] at hw
  cases hres : (download_docver cfg r fs dv.id dv.file_name).res with
  | error e => rw [hres] at hw; simp at hw
  | ok u =>
      rw [hres] at hw
      by_cases hmime : guess_type dv.file_name = some "application/pdf"
          ∨ guess_type dv.file_name = some "application/image"
      · rw [if_pos hmime] at hw
        simpa using hw.symm
      · rw [if_neg hmime] at hw
        simp at hw

theorem build_workflow_pageTasks_mem (docId : Nat) (dv : DocVer) (c : Nat)
    (tps : List Nat) (lang : String) :
    ∀ p ∈ (build_workflow docId dv c tps lang).pageTasks,
      p.target_docver_id = c ∧ p.target_page_id ∈ tps := by
  intro p hp
  simp only [build_workflow, List.mem_map] at hp
  rcases hp with ⟨⟨i, x⟩, hmem, rfl⟩
  refine ⟨rfl, ?_⟩
  have hx : tps[i]? = some x := by
    simpa using (List.mk_mem_enum_iff_getElem?).1 hmem
  rcases List.getElem?_eq_some.1 hx with ⟨hlt, hget⟩
  exact hget ▸ List.getElem_mem hlt

/-- Claim C1 counterexample: a concrete submission (document 7, one source
page, source bytes not yet visible) whose first attempt raises the
auto-retried `S3DocumentNotFound`, after which the second attempt of the
top-level task allocates target identifiers 2 and [3] instead of reusing
the first attempt's 0 and [1] — so two runs of a retried submission use
freshly generated PipelineRun identifiers, not equal ones. -/
theorem C1_counterexample :
    (ocr_document_task cfgOn rAbsent dbEx [] ⟨0⟩ 7 "eng").outcome
      = .error (.s3DocumentNotFound ⟨"main", .docverFile 1 "a.pdf"⟩)
    ∧ isAutoRetried (.s3DocumentNotFound ⟨"main", .docverFile 1 "a.pdf"⟩)
      = true
    ∧ (ocr_document_task cfgOn rAbsent dbEx [] ⟨0⟩ 7 "eng").targetDocverId
      = 0
    ∧ (ocr_document_task cfgOn rAbsent dbEx [] ⟨0⟩ 7 "eng").targetPageIds
      = [1]
    ∧ (ocr_document_task cfgOn rAbsent dbEx
        (ocr_document_task cfgOn rAbsent dbEx [] ⟨0⟩ 7 "eng").fs
        (ocr_document_task cfgOn rAbsent dbEx [] ⟨0⟩ 7 "eng").gen
        7 "eng").targetDocverId = 2
    ∧ (ocr_document_task cfgOn rAbsent dbEx
        (ocr_document_task cfgOn rAbsent dbEx [] ⟨0⟩ 7 "eng").fs
        (ocr_document_task cfgOn rAbsent dbEx [] ⟨0⟩ 7 "eng").gen
        7 "eng").targetPageIds ≠
      (ocr_document_task cfgOn rAbsent dbEx [] ⟨0⟩ 7 "eng").targetPageIds :=
  ⟨rfl, rfl, rfl, rfl, rfl, by decide⟩

/-- Claim C1 (amended): the target identifiers are generated before the
task graph is submitted and are embedded as literal parameters into every
task of the graph (so graph-task retries reuse them); but each automatic
retry of the top-level task itself re-runs the allocation and operates on
freshly generated identifiers, none of which equals an identifier of the
first attempt. -/
theorem C1_amended_ids_literal_but_retry_fresh (cfg : Cfg) (r : Remote)
    (db : Db) (fs : FS) (gen : UuidGen) (docId : Nat) (lang : String)
    (dv : DocVer) (run run2 : TaskRun)
    (hdv : db.lastVersion docId = some dv)
    (hrun : run = ocr_document_task cfg r db fs gen docId lang)
    (hrun2 : run2 = ocr_document_task cfg r db run.fs run.gen docId lang) :
    (∀ w, run.outcome = .ok w →
      w.stitchSig.target_docver_id = run.targetDocverId
      ∧ w.stitchSig.target_page_ids = run.targetPageIds
      ∧ w.updateSig.target_docver_id = run.targetDocverId
      ∧ w.updateSig.target_page_ids = run.targetPageIds
      ∧ ∀ p ∈ w.pageTasks, p.target_docver_id = run.targetDocverId
          ∧ p.target_page_id ∈ run.targetPageIds)
    ∧ run2.targetDocverId ∉ run.targetDocverId :: run.targetPageIds
    ∧ ∀ x ∈ run2.targetPageIds,
        x ∉ run.targetDocverId :: run.targetPageIds := by
  obtain ⟨h1, h2, h3⟩ :=
    ocr_document_task_ids cfg r db fs gen docId lang dv hdv
  rw [← hrun] at h1 h2 h3
  obtain ⟨g1, g2, g3⟩ :=
    ocr_document_task_ids cfg r db run.fs run.gen docId lang dv hdv
  rw [← hrun2] at g1 g2 g3
  have hg1 : run2.targetDocverId
      = gen.counter + 1 + (db.pagesOf dv.id).length := by rw [g1, h3]
  have hg2 : run2.targetPageIds
      = allocPageIds (gen.counter + 1 + (db.pagesOf dv.id).length)
          (db.pagesOf dv.id).length := by rw [g2, h3]
  have hbound : ∀ x ∈ run.targetDocverId :: run.targetPageIds,
      x ≤ gen.counter + (db.pagesOf dv.id).length := by
    intro x hx
    rcases List.mem_cons.1 hx with hx | hx
    · subst hx; rw [h1]; omega
    · rw [h2] at hx
      exact (mem_allocPageIds hx).2
  refine ⟨?_, ?_, ?_⟩
  · intro w hw
    have hbuild := ocr_document_task_outcome_ok cfg r db fs gen docId lang
      dv w hdv (hrun ▸ hw)
    subst hbuild
    refine ⟨by simp [build_workflow, h1], by simp [build_workflow, h2],
      by simp [build_workflow, h1], by simp [build_workflow, h2], ?_⟩
    intro p hp
    obtain ⟨hc, hmem⟩ := build_workflow_pageTasks_mem docId dv gen.counter
      (allocPageIds gen.counter (db.pagesOf dv.id).length) lang.toLower p hp
    exact ⟨by rw [h1, hc], by rw [h2]; exact hmem⟩
  · intro hmem
    have hle := hbound _ hmem
    rw [hg1] at hle
    omega
  · intro x hx hmem
    have hle := hbound x hmem
    rw [hg2] at hx
    have hge := (mem_allocPageIds hx).1
    omega

/-- Witness for C1 (amended) at the concrete single-page submission. -/
theorem C1_amended_ids_literal_but_retry_fresh_witness :
    (ocr_document_task cfgOn rAbsent dbEx
        (ocr_document_task cfgOn rAbsent dbEx [] ⟨0⟩ 7 "eng").fs
        (ocr_document_task cfgOn rAbsent dbEx [] ⟨0⟩ 7 "eng").gen
        7 "eng").targetDocverId ∉
      (ocr_document_task cfgOn rAbsent dbEx [] ⟨0⟩ 7 "eng").targetDocverId ::
        (ocr_document_task cfgOn rAbsent dbEx [] ⟨0⟩ 7 "eng").targetPageIds :=
  (C1_amended_ids_literal_but_retry_fresh cfgOn rAbsent dbEx [] ⟨0⟩ 7 "eng"
    ⟨1, "a.pdf"⟩ (ocr_document_task cfgOn rAbsent dbEx [] ⟨0⟩ 7 "eng")
    (ocr_document_task cfgOn rAbsent dbEx
      (ocr_document_task cfgOn rAbsent dbEx [] ⟨0⟩ 7 "eng").fs
      (ocr_document_task cfgOn rAbsent dbEx [] ⟨0⟩ 7 "eng").gen
      7 "eng") rfl rfl rfl).2.1

theorem ocr_outcome_of_res_error (cfg : Cfg) (r : Remote) (db : Db) (fs : FS)
    (gen : UuidGen) (docId : Nat) (lang : String) (dv : DocVer) (e : Err)
    (hdv : db.lastVersion docId = some dv)
    (hres : (download_docver cfg r fs dv.id dv.file_name).res = .error e) :
    (ocr_document_task cfg r db fs gen docId lang).outcome = .error e := by
  simp only [ocr_document_task, hdv]
  rw [hres]

theorem ocr_outcome_of_res_ok (cfg : Cfg) (r : Remote) (db : Db) (fs : FS)
    (gen : UuidGen) (docId : Nat) (lang : String) (dv : DocVer) (u : Unit)
    (hdv : db.lastVersion docId = some dv)
    (hres : (download_docver cfg r fs dv.id dv.file_name).res = .ok u) :
    (ocr_document_task cfg r db fs gen docId lang).outcome
      = if guess_type dv.file_name = some "application/pdf"
          ∨ guess_type dv.file_name = some "application/image"
        then .ok (build_workflow docId dv gen.counter
              (allocPageIds gen.counter (db.pagesOf dv.id).length)
              lang.toLower)
        else .error (.unsupportedFormat dv.id dv.file_name) := by
  simp only [ocr_document_task, hdv]
  rw [hres]
  by_cases hmime : guess_type dv.file_name = some "application/pdf"
      ∨ guess_type dv.file_name = some "application/image"
  · simp [hmime]
  · simp [hmime]

theorem ocr_retried_iff (cfg : Cfg) (r : Remote) (db : Db) (fs : FS)
    (gen : UuidGen) (docId : Nat) (lang : String) (dv : DocVer)
    (hen : is_enabled cfg = true) (hdv : db.lastVersion docId = some dv) :
    (∃ e, (ocr_document_task cfg r db fs gen docId lang).outcome = .error e
        ∧ isAutoRetried e = true)
      ↔ (fsGet fs (.docverFile dv.id dv.file_name) = none
          ∧ ∃ c, r.head ⟨cfg.pfx, .docverFile dv.id dv.file_name⟩
              = .clientErr c) := by
  by_cases hloc : fsGet fs (.docverFile dv.id dv.file_name) = none
  · cases hh : r.head ⟨cfg.pfx, .docverFile dv.id dv.file_name⟩ with
    | clientErr c =>
        have hdl : (download_docver cfg r fs dv.id dv.file_name).res
            = .error (.s3DocumentNotFound
                ⟨cfg.pfx, .docverFile dv.id dv.file_name⟩) := by
          simp [download_docver, skip_if_s3_disabled, hen, hloc, obj_exists,
            hh]
        have hout := ocr_outcome_of_res_error cfg r db fs gen docId lang dv
          _ hdv hdl
        simp [hout, isAutoRetried, hloc, hh]
    | ok =>
        cases hobj : r.getObj ⟨cfg.pfx, .docverFile dv.id dv.file_name⟩ with
        | none =>
            have hdl : (download_docver cfg r fs dv.id dv.file_name).res
                = .error .transportFault := by
              simp [download_docver, skip_if_s3_disabled, hen, hloc,
                obj_exists, hh, hobj]
            have hout := ocr_outcome_of_res_error cfg r db fs gen docId lang
              dv _ hdv hdl
            simp [hout, isAutoRetried, hh]
        | some b =>
            have hdl : (download_docver cfg r fs dv.id dv.file_name).res
                = .ok () := by
              simp [download_docver, skip_if_s3_disabled, hen, hloc,
                obj_exists, hh, hobj]
            have hout := ocr_outcome_of_res_ok cfg r db fs gen docId lang dv
              () hdv hdl
            by_cases hmime : guess_type dv.file_name = some "application/pdf"
                ∨ guess_type dv.file_name = some "application/image" <;>
              simp [hout, hmime, isAutoRetried, hh]
    | transportErr =>
        have hdl : (download_docver cfg r fs dv.id dv.file_name).res
            = .error .transportFault := by
          simp [download_docver, skip_if_s3_disabled, hen, hloc, obj_exists,
            hh]
        have hout := ocr_outcome_of_res_error cfg r db fs gen docId lang dv
          _ hdv hdl
        simp [hout, isAutoRetried, hh]
  · cases hobj : r.getObj ⟨cfg.pfx, .docverFile dv.id dv.file_name⟩ with
    | none =>
        have hdl : (download_docver cfg r fs dv.id dv.file_name).res
            = .error .transportFault := by
          simp [download_docver, skip_if_s3_disabled, hen, hloc, hobj]
        have hout := ocr_outcome_of_res_error cfg r db fs gen docId lang dv
          _ hdv hdl
        simp [hout, isAutoRetried, hloc]
    | some b =>
        have hdl : (download_docver cfg r fs dv.id dv.file_name).res
            = .ok () := by
          simp [download_docver, skip_if_s3_disabled, hen, hloc, hobj]
        have hout := ocr_outcome_of_res_ok cfg r db fs gen docId lang dv
          () hdv hdl
        by_cases hmime : guess_type dv.file_name = some "application/pdf"
            ∨ guess_type dv.file_name = some "application/image" <;>
          simp [hout, hmime, isAutoRetried, hloc]

/-- Claim C5: with the mirror enabled and an honest remote (not-found is the
only client-error it produces), the top-level OCR task raises an
automatically retried error if and only if the source version's bytes are
absent both locally and remotely; the retry policy is exactly 6 retries
with a 10-second countdown, and `S3DocumentNotFound` is the only
automatically retried error. -/
theorem C5_retry_exactly_on_missing_source (cfg : Cfg) (r : Remote) (db : Db)
    (fs : FS) (gen : UuidGen) (docId : Nat) (lang : String) (dv : DocVer)
    (hen : is_enabled cfg = true)
    (hdv : db.lastVersion docId = some dv)
    (hwell : ∀ k, r.head k = .ok ∨ r.head k = .clientErr "NoSuchKey") :
    ((∃ e, (ocr_document_task cfg r db fs gen docId lang).outcome = .error e
        ∧ isAutoRetried e = true)
      ↔ (fsGet fs (.docverFile dv.id dv.file_name) = none
          ∧ r.head ⟨cfg.pfx, .docverFile dv.id dv.file_name⟩
              = .clientErr "NoSuchKey"))
    ∧ (∀ e, isAutoRetried e = true ↔ ∃ k, e = Err.s3DocumentNotFound k)
    ∧ ocr_document_retry_kwargs.max_retries = 6
    ∧ ocr_document_retry_kwargs.countdown = 10 := by
  refine ⟨?_, ?_, rfl, rfl⟩
  · rw [ocr_retried_iff cfg r db fs gen docId lang dv hen hdv]
    constructor
    · rintro ⟨hl, c, hc⟩
      rcases hwell ⟨cfg.pfx, .docverFile dv.id dv.file_name⟩ with hh | hh
      · rw [hh] at hc; exact absurd hc (by simp)
      · exact ⟨hl, hh⟩
    · rintro ⟨hl, hh⟩
      exact ⟨hl, "NoSuchKey", hh⟩
  · intro e
    cases e <;> simp [isAutoRetried]

/-- Witness for C5 at the concrete submission of document 7 with the source
bytes absent locally and remotely. -/
theorem C5_retry_exactly_on_missing_source_witness :
    (∃ e, (ocr_document_task cfgOn rAbsent dbEx [] ⟨0⟩ 7 "eng").outcome
        = .error e ∧ isAutoRetried e = true)
    ∧ ocr_document_retry_kwargs.max_retries = 6
    ∧ ocr_document_retry_kwargs.countdown = 10 :=
  ⟨((C5_retry_exactly_on_missing_source cfgOn rAbsent dbEx [] ⟨0⟩ 7 "eng"
        ⟨1, "a.pdf"⟩ rfl rfl (fun _ => Or.inr rfl)).1).2 ⟨rfl, rfl⟩,
    (C5_retry_exactly_on_missing_source cfgOn rAbsent dbEx [] ⟨0⟩ 7 "eng"
        ⟨1, "a.pdf"⟩ rfl rfl (fun _ => Or.inr rfl)).2.2.1,
    (C5_retry_exactly_on_missing_source cfgOn rAbsent dbEx [] ⟨0⟩ 7 "eng"
        ⟨1, "a.pdf"⟩ rfl rfl (fun _ => Or.inr rfl)).2.2.2⟩

/-- Claim C7: when the source version is fetchable but its resolved MIME
type is neither PDF nor a supported image type, the top-level task fails
with the unsupported-format error, that error is never automatically
retried, and no workflow (hence no per-page task) is submitted for the
run. -/
theorem C7_unsupported_format_fatal (cfg : Cfg) (r : Remote) (db : Db)
    (fs : FS) (gen : UuidGen) (docId : Nat) (lang : String) (dv : DocVer)
    (hdv : db.lastVersion docId = some dv)
    (hdl : (download_docver cfg r fs dv.id dv.file_name).res = .ok ())
    (hpdf : guess_type dv.file_name ≠ some "application/pdf")
    (himg : guess_type dv.file_name ≠ some "application/image") :
    (ocr_document_task cfg r db fs gen docId lang).outcome
      = .error (.unsupportedFormat dv.id dv.file_name)
    ∧ isAutoRetried (.unsupportedFormat dv.id dv.file_name) = false
    ∧ ∀ w, (ocr_document_task cfg r db fs gen docId lang).outcome
        ≠ .ok w := by
  have hout := ocr_outcome_of_res_ok cfg r db fs gen docId lang dv () hdv hdl
  rw [if_neg (by simp [hpdf, himg])] at hout
  refine ⟨hout, rfl, ?_⟩
  intro w hw
  rw [hout] at hw
  exact Except.noConfusion hw

/-- Witness for C7: a `.bin` source version fails as unsupported and no
workflow is submitted. -/
theorem C7_unsupported_format_fatal_witness :
    (ocr_document_task cfgOff rAbsent dbBin [] ⟨0⟩ 7 "eng").outcome
      = .error (.unsupportedFormat 1 "a.bin")
    ∧ isAutoRetried (.unsupportedFormat 1 "a.bin") = false :=
  ⟨(C7_unsupported_format_fatal cfgOff rAbsent dbBin [] ⟨0⟩ 7 "eng"
      ⟨1, "a.bin"⟩ rfl rfl (by decide) (by decide)).1,
    (C7_unsupported_format_fatal cfgOff rAbsent dbBin [] ⟨0⟩ 7 "eng"
      ⟨1, "a.bin"⟩ rfl rfl (by decide) (by decide)).2.1⟩

/-! ## Lemmas on the batched page-PDF fetch -/

theorem page_pdf_url_key (cfg : Cfg) (pid : Nat) :
    (page_pdf_url cfg pid).key = ⟨cfg.pfx, .pageFile pid PAGE_PDF⟩ := rfl

theorem download_one_pdf_page_ops (cfg : Cfg) (r : Remote) (fs : FS)
    (pid : Nat) :
    (download_one_pdf_page cfg r fs pid).ops
      = [.presignGet ⟨cfg.pfx, .pageFile pid PAGE_PDF⟩,
          .httpGet (page_pdf_url cfg pid)] := by
  cases hh : r.http (page_pdf_url cfg pid) <;>
    simp [download_one_pdf_page, get_pdf_page, hh, page_pdf_url_key]

theorem supervisor_ops_pages (cfg : Cfg) (r : Remote) (pids : List Nat) :
    ∀ fs, ∀ op ∈ (supervisor cfg r fs pids).ops, ∃ pid ∈ pids,
      op = RemoteOp.presignGet ⟨cfg.pfx, .pageFile pid PAGE_PDF⟩
      ∨ op = RemoteOp.httpGet (page_pdf_url cfg pid) := by
  induction pids with
  | nil => intro fs op hop; simp [supervisor] at hop
  | cons q rest ih =>
      intro fs op hop
      simp only [supervisor] at hop
      cases hres : (download_one_pdf_page cfg r fs q).res with
      | error e =>
          rw [hres] at hop
          rw [download_one_pdf_page_ops] at hop
          simp at hop
          rcases hop with hop | hop <;>
            exact ⟨q, List.mem_cons_self q rest, by simp [hop]⟩
      | ok u =>
          rw [hres] at hop
          simp only [List.mem_append] at hop
          rcases hop with hop | hop
          · rw [download_one_pdf_page_ops] at hop
            simp at hop
            rcases hop with hop | hop <;>
              exact ⟨q, List.mem_cons_self q rest, by simp [hop]⟩
          · rcases ih (download_one_pdf_page cfg r fs q).fs op hop with
              ⟨pid, hmem, hform⟩
            exact ⟨pid, List.mem_cons_of_mem q hmem, hform⟩

theorem supervisor_err_of_fail (cfg : Cfg) (r : Remote) (pid : Nat)
    (hfail : r.http (page_pdf_url cfg pid) = .error ()) (pids : List Nat) :
    ∀ fs, pid ∈ pids →
      ∃ e, (supervisor cfg r fs pids).res = .error e := by
  induction pids with
  | nil => intro fs hmem; exact absurd hmem (List.not_mem_nil pid)
  | cons q rest ih =>
      intro fs hmem
      rcases List.mem_cons.1 hmem with hq | hrest
      · subst hq
        have hone : (download_one_pdf_page cfg r fs pid).res
            = .error .transportFault := by
          simp [download_one_pdf_page, get_pdf_page, hfail]
        exact ⟨.transportFault, by simp only [supervisor]; rw [hone]⟩
      · cases hres : (download_one_pdf_page cfg r fs q).res with
        | error e => exact ⟨e, by simp only [supervisor]; rw [hres]⟩
        | ok u =>
            rcases ih (download_one_pdf_page cfg r fs q).fs hrest with ⟨e, he⟩
            refine ⟨e, ?_⟩
            simp only [supervisor]
            rw [hres]
            simp [he, Except.map]

theorem supervisor_ok_of_all (cfg : Cfg) (r : Remote) (pids : List Nat) :
    ∀ fs, (∀ pid ∈ pids, r.http (page_pdf_url cfg pid) ≠ .error ()) →
      ∃ n, (supervisor cfg r fs pids).res = .ok n := by
  induction pids with
  | nil => intro fs _; exact ⟨0, by simp [supervisor]⟩
  | cons q rest ih =>
      intro fs hall
      cases hh : r.http (page_pdf_url cfg q) with
      | error u =>
          cases u
          exact absurd hh (hall q (List.mem_cons_self q rest))
      | ok resp =>
          have hone : (download_one_pdf_page cfg r fs q).res = .ok () := by
            simp [download_one_pdf_page, get_pdf_page, hh]
          rcases ih (download_one_pdf_page cfg r fs q).fs
            (fun p hp => hall p (List.mem_cons_of_mem q hp)) with ⟨n, hn⟩
          refine ⟨n + 1, ?_⟩
          simp only [supervisor]
          rw [hone]
          simp [hn, Except.map]

/-- Claim C6: in the batched page-PDF fetch, pages whose rendered PDF is
already local are skipped (no presign and no GET is issued for them), and
the batch is all-or-nothing: if any single fetch of the missing set fails
the whole batch operation reports an error, while the batch succeeds when
every fetch of the missing set succeeds. -/
theorem C6_batch_skip_and_all_or_nothing (cfg : Cfg) (r : Remote) (fs : FS)
    (ids : List Nat) (pid : Nat) (hen : is_enabled cfg = true) :
    (∀ q ∈ ids, fsGet fs (.pageFile q PAGE_PDF) ≠ none →
      RemoteOp.presignGet ⟨cfg.pfx, .pageFile q PAGE_PDF⟩
          ∉ (download_pdf_pages cfg r fs ids).ops
      ∧ RemoteOp.httpGet (page_pdf_url cfg q)
          ∉ (download_pdf_pages cfg r fs ids).ops)
    ∧ (pid ∈ ids → fsGet fs (.pageFile pid PAGE_PDF) = none →
        r.http (page_pdf_url cfg pid) = .error () →
        ∃ e, (download_pdf_pages cfg r fs ids).res = .error e)
    ∧ ((∀ q ∈ ids, fsGet fs (.pageFile q PAGE_PDF) = none →
          r.http (page_pdf_url cfg q) ≠ .error ()) →
        (download_pdf_pages cfg r fs ids).res = .ok ()) := by
  have hunf : download_pdf_pages cfg r fs ids
      = ⟨(supervisor cfg r fs (ids.filter
            (fun q => fsGet fs (.pageFile q PAGE_PDF) = none))).res.map
            (fun _ => ()),
          (supervisor cfg r fs (ids.filter
            (fun q => fsGet fs (.pageFile q PAGE_PDF) = none))).fs,
          (supervisor cfg r fs (ids.filter
            (fun q => fsGet fs (.pageFile q PAGE_PDF) = none))).ops⟩ := by
    simp [download_pdf_pages, skip_if_s3_disabled, hen,
      download_many_pdf_pages]
  refine ⟨?_, ?_, ?_⟩
  · intro q hq hlocal
    rw [hunf]
    constructor
    · intro hop
      rcases supervisor_ops_pages cfg r _ fs _ hop with ⟨pid2, hmem, hform⟩
      rcases hform with hform | hform <;> simp at hform
      rw [← hform] at hmem
      have hval := (List.mem_filter.1 hmem).2
      simp at hval
      exact hlocal hval
    · intro hop
      rcases supervisor_ops_pages cfg r _ fs _ hop with ⟨pid2, hmem, hform⟩
      rcases hform with hform | hform <;> simp [page_pdf_url] at hform
      rw [← hform] at hmem
      have hval := (List.mem_filter.1 hmem).2
      simp at hval
      exact hlocal hval
  · intro hmem hmiss hfail
    have hmem2 : pid ∈ ids.filter
        (fun q => fsGet fs (.pageFile q PAGE_PDF) = none) :=
      List.mem_filter.2 ⟨hmem, by simp [hmiss]⟩
    rcases supervisor_err_of_fail cfg r pid hfail _ fs hmem2 with ⟨e, he⟩
    rw [hunf]
    exact ⟨e, by simp [he, Except.map]⟩
  · intro hall
    have hall2 : ∀ q ∈ ids.filter
        (fun q => fsGet fs (.pageFile q PAGE_PDF) = none),
        r.http (page_pdf_url cfg q) ≠ .error () := by
      intro q hq
      have hmem := (List.mem_filter.1 hq).1
      have hmiss := (List.mem_filter.1 hq).2
      simp at hmiss
      exact hall q hmem hmiss
    rcases supervisor_ok_of_all cfg r _ fs hall2 with ⟨n, hn⟩
    rw [hunf]
    simp [hn, Except.map]

/-- Witness for C6: with page 21 local and page 22 missing, no fetch
operation is issued for page 21; a failing fetch of page 22 fails the whole
batch, while on a healthy remote the batch succeeds. -/
theorem C6_batch_skip_and_all_or_nothing_witness :
    (RemoteOp.presignGet ⟨"main", .pageFile 21 PAGE_PDF⟩
        ∉ (download_pdf_pages cfgOn rAbsent
            [(.pageFile 21 PAGE_PDF, "P21")] [21, 22]).ops)
    ∧ (∃ e, (download_pdf_pages cfgOn rAbsent
          [(.pageFile 21 PAGE_PDF, "P21")] [21, 22]).res = .error e)
    ∧ (download_pdf_pages cfgOn rFull
          [(.pageFile 21 PAGE_PDF, "P21")] [21, 22]).res = .ok () :=
  ⟨((C6_batch_skip_and_all_or_nothing cfgOn rAbsent
        [(.pageFile 21 PAGE_PDF, "P21")] [21, 22] 22 rfl).1 21 (by simp)
        (by simp [fsGet])).1,
    (C6_batch_skip_and_all_or_nothing cfgOn rAbsent
        [(.pageFile 21 PAGE_PDF, "P21")] [21, 22] 22 rfl).2.1 (by simp) rfl
        rfl,
    (C6_batch_skip_and_all_or_nothing cfgOn rFull
        [(.pageFile 21 PAGE_PDF, "P21")] [21, 22] 22 rfl).2.2
        (fun q _ _ => by simp [rFull])⟩

/-! ## Lemmas on the stitch barrier and the stitch task -/

theorem build_workflow_pageTasks_length (docId : Nat) (dv : DocVer)
    (c : Nat) (tps : List Nat) (lang : String) :
    (build_workflow docId dv c tps lang).pageTasks.length = tps.length := by
  simp [build_workflow]

theorem build_workflow_pageTasks_get (docId : Nat) (dv : DocVer) (c : Nat)
    (tps : List Nat) (lang : String) (i : Nat) (hi : i < tps.length) :
    (build_workflow docId dv c tps lang).pageTasks.get
        ⟨i, by rw [build_workflow_pageTasks_length]; exact hi⟩
      = { doc_id := dv.id, doc_ver_id := dv.id, page_number := i + 1,
          target_docver_id := c, target_page_id := tps.get ⟨i, hi⟩,
          lang := lang, preview_width := 300 } := by
  simp [build_workflow, List.get_eq_getElem, List.getElem_map,
    List.getElem_enum]

theorem validTrace_pages_before_stitch (w : Workflow) (t : List TLabel)
    (ht : validTrace w t) (i : Nat) (hi : i < w.pageTasks.length) :
    t.indexOf (TLabel.pageT i) < t.indexOf TLabel.stitchT := by
  rcases ht with ⟨perm, hperm, rfl⟩
  have hmem : TLabel.pageT i ∈ perm.map TLabel.pageT :=
    List.mem_map_of_mem TLabel.pageT
      (hperm.mem_iff.2 (List.mem_range.2 hi))
  have hidx1 : (perm.map TLabel.pageT
        ++ [TLabel.stitchT, TLabel.updateT, TLabel.previewT,
            TLabel.notifyT]).indexOf (TLabel.pageT i)
      = (perm.map TLabel.pageT).indexOf (TLabel.pageT i) :=
    List.indexOf_append_of_mem hmem
  have hlt : (perm.map TLabel.pageT).indexOf (TLabel.pageT i)
      < (perm.map TLabel.pageT).length :=
    List.indexOf_lt_length.2 hmem
  have hnot : TLabel.stitchT ∉ perm.map TLabel.pageT := by simp
  have hidx2 : (perm.map TLabel.pageT
        ++ [TLabel.stitchT, TLabel.updateT, TLabel.previewT,
            TLabel.notifyT]).indexOf TLabel.stitchT
      = (perm.map TLabel.pageT).length
        + ([TLabel.stitchT, TLabel.updateT, TLabel.previewT,
            TLabel.notifyT]).indexOf TLabel.stitchT :=
    List.indexOf_append_of_not_mem hnot
  rw [hidx1, hidx2, List.indexOf_cons_self]
  omega

theorem upload_file_res_fs (cfg : Cfg) (fs : FS) (rel : RelPath) :
    (upload_file cfg fs rel).res = .ok ()
    ∧ (upload_file cfg fs rel).fs = fs := by
  by_cases hen : is_enabled cfg = false
  · simp [upload_file, skip_if_s3_disabled, hen]
  · cases hf : fsGet fs rel <;>
      simp [upload_file, skip_if_s3_disabled, hen, hf]

theorem download_pdf_pages_all_local (cfg : Cfg) (r : Remote) (fs : FS)
    (ids : List Nat)
    (hloc : ∀ pid ∈ ids, fsGet fs (.pageFile pid PAGE_PDF) ≠ none) :
    download_pdf_pages cfg r fs ids = ⟨.ok (), fs, []⟩ := by
  by_cases hen : is_enabled cfg = false
  · simp [download_pdf_pages, skip_if_s3_disabled, hen]
  · have hfilter : ids.filter
        (fun q => fsGet fs (.pageFile q PAGE_PDF) = none) = [] :=
      List.filter_eq_nil_iff.2 (fun a ha => by simp [hloc a ha])
    simp [download_pdf_pages, skip_if_s3_disabled, hen,
      download_many_pdf_pages, hfilter, supervisor, Except.map]

theorem readAll_pages (fs : FS) (c : Nat → String) (ids : List Nat)
    (hloc : ∀ pid ∈ ids, fsGet fs (.pageFile pid PAGE_PDF) = some (c pid)) :
    readAll fs (ids.map (fun pid => RelPath.pageFile pid PAGE_PDF))
      = some (ids.map c) := by
  induction ids with
  | nil => simp [readAll]
  | cons q rest ih =>
      have hq := hloc q (List.mem_cons_self q rest)
      have hrest := ih (fun p hp => hloc p (List.mem_cons_of_mem q hp))
      simp [readAll, hq, hrest]

theorem stitch_pages_task_content (cfg : Cfg) (r : Remote) (db : Db)
    (fs : FS) (sig : StitchSig) (dv : DocVer) (c : Nat → String)
    (hdv : db.getDocVer sig.doc_ver_id = some dv)
    (hloc : ∀ pid ∈ sig.target_page_ids,
      fsGet fs (.pageFile pid PAGE_PDF) = some (c pid)) :
    (stitch_pages_task cfg r db fs sig).res = .ok ()
    ∧ fsGet (stitch_pages_task cfg r db fs sig).fs
        (.docverFile sig.target_docver_id dv.file_name)
      = some (String.join (sig.target_page_ids.map c)) := by
  have hdl := download_pdf_pages_all_local cfg r fs sig.target_page_ids
    (fun pid hp => by simp [hloc pid hp])
  have hread := readAll_pages fs c sig.target_page_ids hloc
  have hup := upload_file_res_fs cfg
    (fsSet fs (.docverFile sig.target_docver_id dv.file_name)
      (String.join (sig.target_page_ids.map c)))
    (.docverFile sig.target_docver_id dv.file_name)
  simp only [stitch_pages_task, hdv, hdl, stitch_pdf, hread]
  simp [hup.1, hup.2, fsGet_fsSet_self]

/-- Claim C8: for every run whose top-level task submitted a workflow, (i)
in every valid execution order of the task graph each of the N per-page
tasks completes strictly before the stitch task starts; (ii) the i-th page
task carries page number i+1 and the i-th allocated target page id, so the
order of `target_page_ids` is the source page-number order; and (iii) when
every target page PDF is present, the stitch task succeeds and writes the
new version's file as the concatenation of exactly those N page PDFs in
`target_page_ids` order. -/
theorem C8_barrier_and_concat_order (cfg : Cfg) (r r2 : Remote) (db : Db)
    (fs fs2 : FS) (gen : UuidGen) (docId : Nat) (lang : String)
    (dv dv2 : DocVer) (w : Workflow) (c : Nat → String)
    (hdv : db.lastVersion docId = some dv)
    (hw : (ocr_document_task cfg r db fs gen docId lang).outcome = .ok w)
    (hdv2 : db.getDocVer w.stitchSig.doc_ver_id = some dv2)
    (hloc : ∀ pid ∈ w.stitchSig.target_page_ids,
      fsGet fs2 (.pageFile pid PAGE_PDF) = some (c pid)) :
    (∀ t, validTrace w t → ∀ i, i < w.pageTasks.length →
        t.indexOf (TLabel.pageT i) < t.indexOf TLabel.stitchT)
    ∧ w.pageTasks.length = w.stitchSig.target_page_ids.length
    ∧ (∀ i, (hi : i < w.pageTasks.length) →
        (w.pageTasks.get ⟨i, hi⟩).page_number = i + 1
        ∧ (w.pageTasks.get ⟨i, hi⟩).target_page_id
            = w.stitchSig.target_page_ids.getD i 0)
    ∧ (stitch_pages_task cfg r2 db fs2 w.stitchSig).res = .ok ()
    ∧ fsGet (stitch_pages_task cfg r2 db fs2 w.stitchSig).fs
        (.docverFile w.stitchSig.target_docver_id dv2.file_name)
      = some (String.join (w.stitchSig.target_page_ids.map c)) := by
  have hbuild := ocr_document_task_outcome_ok cfg r db fs gen docId lang dv
    w hdv hw
  obtain ⟨hst1, hst2⟩ := stitch_pages_task_content cfg r2 db fs2 w.stitchSig
    dv2 c hdv2 hloc
  refine ⟨fun t ht i hi => validTrace_pages_before_stitch w t ht i hi,
    ?_, ?_, hst1, hst2⟩
  · subst hbuild
    rw [build_workflow_pageTasks_length]
    rfl
  · intro i hi
    subst hbuild
    have hi2 : i < (allocPageIds gen.counter
        (db.pagesOf dv.id).length).length := by
      rw [← build_workflow_pageTasks_length docId dv gen.counter
        (allocPageIds gen.counter (db.pagesOf dv.id).length) lang.toLower]
      exact hi
    rw [build_workflow_pageTasks_get docId dv gen.counter
      (allocPageIds gen.counter (db.pagesOf dv.id).length) lang.toLower
      i hi2]
    refine ⟨rfl, ?_⟩
    show (allocPageIds gen.counter (db.pagesOf dv.id).length).get ⟨i, hi2⟩
      = (allocPageIds gen.counter (db.pagesOf dv.id).length).getD i 0
    rw [List.getD_eq_getElem _ 0 hi2]
    simp

/-- Witness for C8 at a concrete one-page run: the submitted workflow's
stitch signature, run on a filesystem holding the page PDF, writes the
concatenation. -/
theorem C8_barrier_and_concat_order_witness :
    (stitch_pages_task cfgOn rFull dbEx [(.pageFile 1 PAGE_PDF, "PAGE1")]
        (build_workflow 7 ⟨1, "a.pdf"⟩ 0 (allocPageIds 0 1)
          (String.toLower "eng")).stitchSig).res = .ok ()
    ∧ fsGet (stitch_pages_task cfgOn rFull dbEx
          [(.pageFile 1 PAGE_PDF, "PAGE1")]
          (build_workflow 7 ⟨1, "a.pdf"⟩ 0 (allocPageIds 0 1)
            (String.toLower "eng")).stitchSig).fs
        (.docverFile (build_workflow 7 ⟨1, "a.pdf"⟩ 0 (allocPageIds 0 1)
            (String.toLower "eng")).stitchSig.target_docver_id "a.pdf")
      = some (String.join ((build_workflow 7 ⟨1, "a.pdf"⟩ 0
          (allocPageIds 0 1)
          (String.toLower "eng")).stitchSig.target_page_ids.map
            (fun _ => "PAGE1"))) :=
  ⟨(C8_barrier_and_concat_order cfgOn rFull rFull dbEx fsLoc
      [(.pageFile 1 PAGE_PDF, "PAGE1")] ⟨0⟩ 7 "eng" ⟨1, "a.pdf"⟩
      ⟨1, "a.pdf"⟩ (build_workflow 7 ⟨1, "a.pdf"⟩ 0 (allocPageIds 0 1)
        (String.toLower "eng")) (fun _ => "PAGE1") rfl rfl rfl
      (by intro pid hpid
          have hp1 : pid = 1 := by
            simpa [build_workflow, allocPageIds, List.range_succ] using hpid
          subst hp1; rfl)).2.2.2.1,
    (C8_barrier_and_concat_order cfgOn rFull rFull dbEx fsLoc
      [(.pageFile 1 PAGE_PDF, "PAGE1")] ⟨0⟩ 7 "eng" ⟨1, "a.pdf"⟩
      ⟨1, "a.pdf"⟩ (build_workflow 7 ⟨1, "a.pdf"⟩ 0 (allocPageIds 0 1)
        (String.toLower "eng")) (fun _ => "PAGE1") rfl rfl rfl
      (by intro pid hpid
          have hp1 : pid = 1 := by
            simpa [build_workflow, allocPageIds, List.range_succ] using hpid
          subst hp1; rfl)).2.2.2.2⟩

end OcrWorker
